import Mathlib

/-!
Shallow embedding of the transaction submission / confirmation core of the
`transaction-management` TypeScript repository, together with theorems
settling the frozen claims about it.

The embedding follows the source files:
  * `src/transactions/utils.ts`   — `tryInvokeAbort`, `getTransactionSignatureOrThrow`
  * `src/transactions/confirm.ts` — confirmation-level ordering and the push-path decision
  * `src/transactions/timeouts/static.ts` — the static timeout policy
  * `src/utils.ts`                — `sendAndConfirmTransaction`, `applyTransactionExpiration`
  * `src/transactions/send.ts` and the unnamed send variant — `sendSignedTransaction`
  * the unnamed errors file — the `InstructionError` class

Timers, awaits and the `AbortController` are modelled by explicit state
passing: each concurrent activity becomes a function from a schedule of
externally-visible events (broadcast outcomes, abort arrivals, blockhash
validity answers) to the observable effects it produces (network calls,
`reject` payloads, final token state).
-/

deriving instance DecidableEq for Except

namespace TxCore

/-! ## Bytes and base-58 encoding (the `bs58` collaborator) -/

/-- A byte string, each entry a value `0..255`. -/
abbrev Bytes := List Nat

/-- The bitcoin base-58 alphabet used by the `bs58` dependency. -/
def base58Alphabet : List Char :=
  "123456789ABCDEFGHJKLMNPQRSTUVWXYZabcdefghijkmnopqrstuvwxyz".toList

/-- Big-endian base-58 digit expansion of a natural number, fuel-indexed so
that it is structurally recursive (the fuel `n` itself always suffices,
since a number has at most `n` base-58 digits). `0` yields no digits, as in
the `base-x` algorithm where leading zero bytes are handled separately. -/
def natToBase58Go : Nat → Nat → List Nat → List Nat
  | 0, _, acc => acc
  | _ + 1, 0, acc => acc
  | fuel + 1, n, acc => natToBase58Go fuel (n / 58) (n % 58 :: acc)

/-- Big-endian base-58 digits of `n`. -/
def natToBase58Digits (n : Nat) : List Nat :=
  natToBase58Go n n []

/-- Number of leading zero bytes, each rendered as the character `1`. -/
def countLeadingZeroBytes (bs : Bytes) : Nat :=
  (bs.takeWhile (· == 0)).length

/-- Interpret a byte string as a big-endian natural number. -/
def bytesToNat (bs : Bytes) : Nat :=
  bs.foldl (fun acc b => acc * 256 + b) 0

/-- `bs58.encode`: one `'1'` per leading zero byte, then the base-58 digit
expansion of the remaining big-endian number. -/
def base58Encode (bs : Bytes) : String :=
  String.mk
    (List.replicate (countLeadingZeroBytes bs) '1' ++
      (natToBase58Digits (bytesToNat bs)).map (fun d => base58Alphabet.getD d '1'))

/-! ## Transactions and signature slots -/

/-- One entry of `transaction.signatures`: a `VersionedTransaction` stores a
raw `Uint8Array`, a legacy `Transaction` stores a `{publicKey, signature}`
pair whose `signature` field may be `null`. -/
inductive SigSlot
  | raw (bytes : Bytes)
  | pair (signature : Option Bytes)
deriving DecidableEq, Repr

/-- The parts of a `Transaction | VersionedTransaction` that the submission
core inspects: the signature list and the instruction list (instructions are
kept opaque, identified by a numeric reference). -/
structure Transaction where
  signatures : List SigSlot
  instructions : List Nat
deriving DecidableEq, Repr

/-- The byte content of the first signature slot, after the
`instanceof Uint8Array ? Buffer.from(sig) : sig.signature` normalization:
`none` when the signature list is empty or the first slot's `signature`
field is `null`. -/
def firstSignatureBytes (t : Transaction) : Option Bytes :=
  match t.signatures with
  | [] => none
  | .raw b :: _ => some b
  | .pair s :: _ => s

/-! ## Error taxonomy

The repository's error classes (`SignatureError`, `ConfirmationTimeoutError`,
`TransactionError` from its `errors` module) and the plain `Error` values it
throws, distinguished by kind exactly as the code distinguishes them by
class. -/

/-- An error value raised by the submission core, tagged with the class the
source constructs. -/
inductive ErrorKind
  /-- the `SignatureError` class (thrown when `serialize()` throws) -/
  | signatureError (message : String)
  /-- a plain `new Error(message)` -/
  | genericError (message : String)
deriving DecidableEq, Repr

/-- `getTransactionSignatureOrThrow` (src/transactions/utils.ts 60–73):
throws a plain `Error` when the signature list is empty or the first slot's
buffer is `null`; otherwise returns the base-58 encoding of the first
signature's bytes. -/
def getTransactionSignatureOrThrow (t : Transaction) : Except ErrorKind String :=
  match t.signatures with
  | [] => .error (.genericError "Transaction does not have any signatures")
  | slot :: _ =>
    let signatureBuffer : Option Bytes :=
      match slot with
      | .raw b => some b
      | .pair s => s
    match signatureBuffer with
    | none => .error (.genericError "Invalid signature")
    | some b => .ok (base58Encode b)

/-! ## Confirmation levels (src/transactions/confirm.ts) -/

/-- `TransactionConfirmationStatus`: the three confirmation levels. -/
inductive ConfirmationStatus
  | processed
  | confirmed
  | finalized
deriving DecidableEq, Repr

/-- `TransactionConfirmationStatusEnum`: `processed = 1`, `confirmed = 2`,
`finalized = 3`. -/
def statusRank : ConfirmationStatus → Nat
  | .processed => 1
  | .confirmed => 2
  | .finalized => 3

/-- `areConfirmationLevelsSatisfied` (confirm.ts 51–62): `false` with no
observed status, else observed rank `>=` the maximum required rank.
`Math.max()` of the empty mapped array is `-Infinity` in the source; it is
modelled by the fold base `0`, which like `-Infinity` lies strictly below
every status rank, so the comparison agrees on every input. -/
def areConfirmationLevelsSatisfied (requiredStatuses : List ConfirmationStatus)
    (currentStatus : Option ConfirmationStatus) : Bool :=
  match currentStatus with
  | none => false
  | some c =>
    (requiredStatuses.map statusRank).foldr max 0 ≤ statusRank c

/-! ## Commitments and the push-path decision (confirm.ts 140–182) -/

/-- `Commitment` from web3.js: the three confirmation statuses plus the
deprecated coarse values. -/
inductive Commitment
  | processed
  | confirmed
  | finalized
  | recent
  | single
  | singleGossip
  | root
  | max
deriving DecidableEq, Repr

/-- `TRANSACTION_CONFIRMATION_VALUES.includes(commitment)`
(confirm.ts 20–24, 140–146). -/
def isValidConfirmationValue : Commitment → Bool
  | .processed | .confirmed | .finalized => true
  | _ => false

/-- The value of the `as TransactionConfirmationStatus` cast of a commitment:
the corresponding status when the commitment is one of the three statuses,
`none` otherwise (in the source the cast leaves the string unchanged and the
enum lookup on a non-status string yields `undefined`, making the rank
comparison false — the same behaviour `none` gives here). -/
def commitmentAsStatus : Commitment → Option ConfirmationStatus
  | .processed => some .processed
  | .confirmed => some .confirmed
  | .finalized => some .finalized
  | _ => none

/-- What the push-path `onSignature` handler does with one notification. -/
inductive PushOutcome
  /-- `reject(result.err)` after aborting the controller -/
  | rejected
  /-- `resolve(result)` after aborting the controller -/
  | resolved
  /-- `innerResolve(result)`: fall through to REST polling -/
  | fallthroughToPolling
deriving DecidableEq, Repr

/-- The decision taken by the `onSignature` callback (confirm.ts 123–180):
an error rejects; otherwise resolve when the subscription commitment is not
a valid confirmation value, or when it is and it satisfies the required
levels; otherwise fall through to polling. -/
def pushNotificationOutcome (subscriptionCommitment : Commitment)
    (requiredLevels : List ConfirmationStatus) (resultErr : Bool) : PushOutcome :=
  if resultErr then .rejected
  else
    let isValid := isValidConfirmationValue subscriptionCommitment
    if !isValid ||
        (isValid &&
          areConfirmationLevelsSatisfied requiredLevels
            (commitmentAsStatus subscriptionCommitment)) then
      .resolved
    else
      .fallthroughToPolling

/-! ## The cancellation token (src/transactions/utils.ts 54–58) -/

/-- The observable state of an `AbortController`: the `aborted` flag, the
listeners currently registered on its signal (identified by numeric ids),
and the log of listener invocations so far. -/
structure Controller where
  aborted : Bool
  listeners : List Nat
  invoked : List Nat
deriving DecidableEq, Repr

/-- `controller.abort()`: on a not-yet-aborted controller, set the flag and
invoke every registered listener once; the DOM makes a second `abort()` a
no-op. -/
def abortController (c : Controller) : Controller :=
  if c.aborted then c
  else { c with aborted := true, invoked := c.invoked ++ c.listeners }

/-- `tryInvokeAbort` (utils.ts 54–58): abort only when the signal has not
already been aborted. -/
def tryInvokeAbort (c : Controller) : Controller :=
  if c.aborted then c else abortController c

/-! ## Rejection payloads and the orchestrator's catch branch -/

/-- The payload carried by an `InstructionError` variant of an on-chain
`TransactionError`: the failing instruction index and the error name. -/
structure InstructionErrorPayload where
  index : Nat
  name : String
deriving DecidableEq, Repr

/-- A value the confirmation machinery can `reject` with: the timeout
policies reject `{timeout: true}`; the watcher rejects with the on-chain
error payload (which may carry an `InstructionError`). -/
structure RejectionPayload where
  timeout : Bool
  instructionError : Option InstructionErrorPayload
deriving DecidableEq, Repr

/-- An error as surfaced to the caller of `sendAndConfirmTransaction`,
tagged with the class the source constructs and the fields that class
carries. -/
inductive SurfacedError
  /-- `ConfirmationTimeoutError({transactionId, message, config})` -/
  | confirmationTimeout (transactionId : String) (message : String)
  /-- `TransactionError({message, transactionId})` — carries no
  instruction reference -/
  | transactionFailure (transactionId : String) (message : String)
  /-- what an `InstructionError({transactionId, transaction, error})`
  carries: the failing instruction's index and reference -/
  | instructionFailure (transactionId : String) (index : Nat)
      (instruction : Option Nat) (message : String)
deriving DecidableEq, Repr

/-- The instruction index a surfaced error references, if any. -/
def referencesInstruction : SurfacedError → Option Nat
  | .instructionFailure _ i _ _ => some i
  | _ => none

/-- The `InstructionError` class constructor (unnamed errors file, 7–37):
destructures the payload into `[ixKey, errorName]`, looks up
`transaction.instructions[ixKey]` (JS indexing: `undefined` when out of
range), and renders the default message from the error name and index. -/
def mkInstructionError (transactionId : String) (t : Transaction)
    (payload : InstructionErrorPayload) : SurfacedError :=
  .instructionFailure transactionId payload.index
    (t.instructions.get? payload.index)
    ("Transaction failed with error " ++ payload.name ++
      " at instruction at index = " ++ toString payload.index)

/-- The `catch` branch of `sendAndConfirmTransaction` (src/utils.ts
132–158): `err.timeout` yields a `ConfirmationTimeoutError`; any other
rejection triggers a best-effort simulation (events only, its failure
swallowed) and then a `TransactionError` with the fixed message
`"Transaction failed"` — the payload's `InstructionError` content is never
inspected. -/
def confirmCatchBranch (transactionId : String) (err : RejectionPayload) :
    SurfacedError :=
  if err.timeout then
    .confirmationTimeout transactionId "Timed out awaiting confirmation on transaction"
  else
    .transactionFailure transactionId "Transaction failed"

/-! ## The static timeout policy (src/transactions/timeouts/static.ts)

`applyStaticTimeout` registers one `setTimeout` for `config.timeoutMs`
milliseconds and one abort listener that clears it.  Its observable
behaviour is a function of the order in which two events occur: the timer
firing and an abort arriving from elsewhere.  A run is a list of such
events folded over the token state. -/

/-- The static-timeout configuration: `config.timeoutMs` as read by
`applyStaticTimeout` (static.ts 22). -/
structure StaticTimeoutConfig where
  timeoutMs : Nat
deriving DecidableEq, Repr

/-- The timer `applyStaticTimeout` schedules: `setTimeout(cb, config.timeoutMs)`
fires `cb` once, `config.timeoutMs` milliseconds after activation, unless
cleared first. -/
def staticTimerDelay (config : StaticTimeoutConfig) : Nat :=
  config.timeoutMs

/-- An event observable by the static timeout policy. -/
inductive StaticEvent
  /-- the scheduled `setTimeout` callback becomes due -/
  | timerFire
  /-- some other component aborts the shared controller -/
  | externalAbort
deriving DecidableEq, Repr

/-- State of the static timeout policy: the token's `aborted` flag, whether
`clearTimeout` has run, and the payloads passed to `reject` so far. -/
structure StaticState where
  aborted : Bool
  timerCleared : Bool
  rejects : List RejectionPayload
deriving DecidableEq, Repr

/-- One event against the static timeout policy (static.ts 17–27).
`timerFire`: a cleared timer does nothing; otherwise the callback runs —
`if (controller.signal.aborted) return` guards it, else it aborts the
controller (whose registered listener clears the spent timer) and calls
`reject({timeout: true})`.  `externalAbort`: an already-aborted controller
ignores it, otherwise the abort listener registered at static.ts 24–27
clears the timer. -/
def staticStep (s : StaticState) : StaticEvent → StaticState
  | .timerFire =>
    if s.timerCleared then s
    else if s.aborted then s
    else
      { aborted := true, timerCleared := true,
        rejects := s.rejects ++ [⟨true, none⟩] }
  | .externalAbort =>
    if s.aborted then s
    else { s with aborted := true, timerCleared := true }

/-- Fold a whole event schedule over the freshly-armed policy. -/
def staticRun (events : List StaticEvent) : StaticState :=
  events.foldl staticStep ⟨false, false, []⟩

/-! ## The expiration timeout policy (src/utils.ts 231–266)

`applyTransactionExpiration` loops: check the token, query
`isBlockhashValid` (an `await`, during which an external abort may land),
on an invalid answer abort-and-reject unless already aborted, then sleep
interruptibly.  One loop iteration is driven by one `ExpStep` describing
the environment's behaviour during that iteration. -/

/-- The environment's behaviour during one iteration of the expiration
polling loop. -/
structure ExpStep where
  /-- the `isBlockhashValid(...).value` answer for this iteration's query -/
  valid : Bool
  /-- an external abort lands while this iteration's validity query is in
  flight -/
  abortDuringQuery : Bool
  /-- an external abort lands during this iteration's `abortableSleep` -/
  abortDuringSleep : Bool
deriving DecidableEq, Repr

/-- Observable state of the expiration policy: the token's flag, the number
of `isBlockhashValid` queries issued, and the `reject` payloads. -/
structure ExpState where
  aborted : Bool
  queries : Nat
  rejects : List RejectionPayload
deriving DecidableEq, Repr

/-- The expiration polling loop (src/utils.ts 247–266).  Each iteration: the
`while (!controller.signal.aborted)` guard; the `isBlockhashValid` query
(counted, with any external abort that lands during the `await` applied
after it); on `!isBlockhashValid.value`, the `if (controller.signal.aborted)
return` guard, else `controller.abort()` and `reject({timeout: true})`; then
`abortableSleep`, during which an external abort may land.  The steps list
bounds how many iterations the environment drives. -/
def runExpiration : List ExpStep → ExpState → ExpState
  | [], s => s
  | step :: rest, s =>
    if s.aborted then s
    else
      let s1 : ExpState :=
        { s with queries := s.queries + 1, aborted := step.abortDuringQuery }
      if step.valid then
        runExpiration rest { s1 with aborted := s1.aborted || step.abortDuringSleep }
      else
        if s1.aborted then s1
        else
          runExpiration rest
            { s1 with aborted := true, rejects := s1.rejects ++ [⟨true, none⟩] }

/-- The run of the expiration policy from its initial state. -/
def expirationRun (steps : List ExpStep) : ExpState :=
  runExpiration steps ⟨false, 0, []⟩

/-- Whether the loop, stepping through `steps` from an un-aborted token,
reaches an invalid-blockhash observation with no abort landing first: the
exact condition under which the policy rejects. -/
def reachesInvalidObservation : List ExpStep → Bool
  | [] => false
  | step :: rest =>
    if step.valid then
      if step.abortDuringQuery || step.abortDuringSleep then false
      else reachesInvalidObservation rest
    else
      !step.abortDuringQuery

/-- The number of `isBlockhashValid` queries the loop issues for a given
schedule: it counts one query per step until (and including) the first step
that stops the loop — an invalid answer or any abort arrival. -/
def expectedQueries : List ExpStep → Nat
  | [] => 0
  | step :: rest =>
    if step.valid && !step.abortDuringQuery && !step.abortDuringSleep then
      1 + expectedQueries rest
    else
      1

/-! ## The resubmission loop (unnamed send variant, lines 66–119)

The background IIFE loops: check both controllers, emit a "send pending"
event, fire `connection.sendRawTransaction` (not awaited — its `.catch`
aborts the loop-local controller on the recognized "already processed"
message and otherwise throws into an unhandled rejection), emit
"send completed", break unless continuous, else sleep interruptibly.  The
broadcast's `.catch` effect is taken to land before the next iteration's
guard (the response arrives during the following interval). -/

/-- The outcome of one `sendRawTransaction` call. -/
inductive BroadcastOutcome
  | ok
  /-- rejected with a message containing
  `TRANSACTION_ALREADY_PROCESSED_MESSAGE` -/
  | alreadyProcessed
  /-- rejected with any other error -/
  | otherError
deriving DecidableEq, Repr

/-- The environment's behaviour during one iteration of the resubmission
loop: the broadcast's outcome, and whether the shared (caller-owned)
controller is aborted during this iteration's interruptible sleep. -/
structure LoopStep where
  outcome : BroadcastOutcome
  abortDuringSleep : Bool
deriving DecidableEq, Repr

/-- Observable result of the resubmission loop: how many broadcasts were
fired and how many broadcast failures became unhandled `Failed to send
transaction` rejections (which never reach the caller). -/
structure LoopResult where
  broadcasts : Nat
  unhandledSendErrors : Nat
deriving DecidableEq, Repr

/-- The resubmission loop (unnamed send variant 78–118), from a given state
of the loop-local "transaction processed" flag and the shared controller's
flag.  Each iteration: the `while` guard over both controllers; the
broadcast (counted), whose `alreadyProcessed` failure sets the loop-local
flag and whose `otherError` failure only produces an unhandled rejection;
`break` when not continuous; else the interruptible sleep, during which the
shared controller may be aborted. -/
def runResubmitLoop (continuous : Bool) :
    List LoopStep → Bool → Bool → LoopResult
  | [], _, _ => ⟨0, 0⟩
  | step :: rest, processedAborted, externalAborted =>
    if processedAborted || externalAborted then ⟨0, 0⟩
    else
      let unhandled := if step.outcome = .otherError then 1 else 0
      if !continuous then ⟨1, unhandled⟩
      else
        let r := runResubmitLoop continuous rest
          (step.outcome = .alreadyProcessed)
          (externalAborted || step.abortDuringSleep)
        ⟨1 + r.broadcasts, unhandled + r.unhandledSendErrors⟩

/-! ## The submission entry point -/

/-- A network operation the submission core can perform. -/
inductive NetOp
  | broadcast
  | statusQuery
  | blockhashQuery
  | subscribe
  | simulate
deriving DecidableEq, Repr

/-- The synchronous head of `sendSignedTransaction` (unnamed send variant
47–65, likewise src/transactions/send.ts 240–259): serialize the
transaction — a `serialize()` failure becomes a `SignatureError` — then
derive the identifier with `getTransactionSignatureOrThrow`.  Every
statement in this phase is a pure computation, so the list of network
operations performed before the identifier exists is empty; the background
loop is only spawned, and the first broadcast only fired, after
`transactionId` is assigned.  `serialize()` itself is external web3.js
code, so its outcome is an input. -/
def deriveTransactionIdPhase (serializeResult : Except String Bytes)
    (t : Transaction) : Except ErrorKind String × List NetOp :=
  match serializeResult with
  | .error m => (.error (.signatureError m), [])
  | .ok _ => (getTransactionSignatureOrThrow t, [])

/-- `sendSignedTransaction` (unnamed send variant): the identifier phase
followed by the background resubmission loop.  The function's own result —
the value the caller awaits — is the identifier from the first phase; the
loop's outcome never feeds back into it. -/
def sendSignedTransactionRun (serializeResult : Except String Bytes)
    (t : Transaction) (continuous : Bool) (steps : List LoopStep) :
    Except ErrorKind String × LoopResult :=
  match (deriveTransactionIdPhase serializeResult t).1 with
  | .error e => (.error e, ⟨0, 0⟩)
  | .ok transactionId => (.ok transactionId, runResubmitLoop continuous steps false false)

/-- Observable outcome of a `sendAndConfirmTransaction` run under the
`"none"` timeout configuration. -/
structure NoneRunResult where
  result : Except ErrorKind String
  broadcastsStarted : Nat
  confirmationAwaited : Bool
  tokenAbortedOnReturn : Bool
deriving DecidableEq, Repr

/-- `sendAndConfirmTransaction` (src/utils.ts 64–112) specialised to
`config.type === "none"`.  `sendSignedTransaction` derives the identifier
and starts the loop, whose first iteration runs synchronously up to its
first interruptible sleep; back in the orchestrator the branch at lines
105–112 immediately calls `controller.abort()` — so the abort lands during
the loop's first sleep — and returns the identifier without ever calling
`awaitTransactionSignatureConfirmation`.  The loop is driven by the
broadcast outcome of its iterations (`firstOutcome` for the iteration that
runs, `restOutcomes` beyond it). -/
def sendAndConfirmTransactionNone (serializeResult : Except String Bytes)
    (t : Transaction) (continuous : Bool) (firstOutcome : BroadcastOutcome)
    (restOutcomes : List BroadcastOutcome) : NoneRunResult :=
  match (deriveTransactionIdPhase serializeResult t).1 with
  | .error e => ⟨.error e, 0, false, false⟩
  | .ok transactionId =>
    let steps : List LoopStep :=
      ⟨firstOutcome, true⟩ :: restOutcomes.map (fun o => ⟨o, false⟩)
    ⟨.ok transactionId, (runResubmitLoop continuous steps false false).broadcasts,
      false, true⟩

/-- Whether an entry-point result failed with the distinguished
`SignatureError` class (as opposed to a plain `Error` or a success). -/
def isSignatureErrorKind : Except ErrorKind String → Bool
  | .error (.signatureError _) => true
  | _ => false

/-! ## Helper lemmas -/

theorem foldr_max_le_iff (l : List Nat) (k : Nat) :
    l.foldr max 0 ≤ k ↔ ∀ x ∈ l, x ≤ k := by
  induction l with
  | nil => simp
  | cons a tl ih => simp [List.foldr_cons, max_le_iff, ih]

theorem getSignature_ok_of_first (t : Transaction) (b : Bytes)
    (h : firstSignatureBytes t = some b) :
    getTransactionSignatureOrThrow t = .ok (base58Encode b) := by
  rcases t with ⟨sigs, ixs⟩
  cases sigs with
  | nil => simp [firstSignatureBytes] at h
  | cons slot rest =>
    cases slot with
    | raw bb =>
      simp [firstSignatureBytes] at h
      simp [getTransactionSignatureOrThrow, h]
    | pair s =>
      simp [firstSignatureBytes] at h
      simp [getTransactionSignatureOrThrow, h]

theorem tryInvokeAbort_isAborted (c : Controller) :
    (tryInvokeAbort c).aborted = true := by
  by_cases h : c.aborted <;> simp [tryInvokeAbort, abortController, h]

theorem tryInvokeAbort_idem (c : Controller) :
    tryInvokeAbort (tryInvokeAbort c) = tryInvokeAbort c := by
  by_cases h : c.aborted <;>
    simp [tryInvokeAbort, abortController, h]

theorem tryInvokeAbort_iterate (n : Nat) (c : Controller) :
    tryInvokeAbort^[n + 1] c = tryInvokeAbort c := by
  induction n generalizing c with
  | zero => simp
  | succ m ih =>
    rw [Function.iterate_succ_apply, ih (tryInvokeAbort c), tryInvokeAbort_idem]

/-! ## C4: the confirmation-level satisfaction check -/

/-- **C4.** For every non-empty list of required confirmation levels and
every observed level, `areConfirmationLevelsSatisfied` returns `true`
exactly when the observed level's rank (`processed = 1 < confirmed = 2 <
finalized = 3`) is at least the maximum required rank — equivalently, at
least every required rank — and it returns `false` when no observed level
is present. -/
theorem confirmationLevelsSatisfiedSpec
    (required : List ConfirmationStatus) (c : ConfirmationStatus)
    (_hne : required ≠ []) :
    (areConfirmationLevelsSatisfied required (some c) = true ↔
      ∀ r ∈ required, statusRank r ≤ statusRank c) ∧
    areConfirmationLevelsSatisfied required none = false := by
  constructor
  · rw [show areConfirmationLevelsSatisfied required (some c) =
        decide ((required.map statusRank).foldr max 0 ≤ statusRank c) from rfl]
    simp [foldr_max_le_iff]
  · rfl

/-- Witness for C4 at `required = [processed, finalized]`,
`observed = confirmed`. -/
theorem confirmationLevelsSatisfiedSpecWitness :
    ([ConfirmationStatus.processed, ConfirmationStatus.finalized] ≠
        ([] : List ConfirmationStatus)) ∧
    ((areConfirmationLevelsSatisfied
        [ConfirmationStatus.processed, ConfirmationStatus.finalized]
        (some ConfirmationStatus.confirmed) = true ↔
      ∀ r ∈ [ConfirmationStatus.processed, ConfirmationStatus.finalized],
        statusRank r ≤ statusRank ConfirmationStatus.confirmed) ∧
     areConfirmationLevelsSatisfied
        [ConfirmationStatus.processed, ConfirmationStatus.finalized] none = false) :=
  ⟨by decide,
   confirmationLevelsSatisfiedSpec
     [ConfirmationStatus.processed, ConfirmationStatus.finalized]
     ConfirmationStatus.confirmed (by decide)⟩

/-! ## C9: idempotence of the cancellation token -/

/-- **C9.** Triggering the cancellation token via `tryInvokeAbort` is
idempotent: `N ≥ 1` triggers yield the same state and observable effects as
one; the token is fired after a trigger and, once fired, a further trigger
is a no-op; all listeners registered before the first trigger are invoked
exactly once (appended once to the invocation log). -/
theorem cancellationTokenIdempotent (c : Controller) (n : Nat) (hn : 1 ≤ n) :
    tryInvokeAbort^[n] c = tryInvokeAbort c ∧
    (tryInvokeAbort c).aborted = true ∧
    (c.aborted = true → tryInvokeAbort c = c) ∧
    (c.aborted = false → (tryInvokeAbort c).invoked = c.invoked ++ c.listeners) := by
  refine ⟨?_, tryInvokeAbort_isAborted c, ?_, ?_⟩
  · obtain ⟨m, rfl⟩ : ∃ m, n = m + 1 := ⟨n - 1, by omega⟩
    exact tryInvokeAbort_iterate m c
  · intro h
    simp [tryInvokeAbort, h]
  · intro h
    simp [tryInvokeAbort, abortController, h]

/-- Witness for C9 at a fresh token with listeners `[7, 8]`, triggered
three times. -/
theorem cancellationTokenIdempotentWitness :
    (1 ≤ 3) ∧
    (tryInvokeAbort^[3] ⟨false, [7, 8], []⟩ =
        tryInvokeAbort ⟨false, [7, 8], []⟩ ∧
     (tryInvokeAbort ⟨false, [7, 8], []⟩).aborted = true ∧
     ((false : Bool) = true → tryInvokeAbort ⟨false, [7, 8], []⟩ =
        (⟨false, [7, 8], []⟩ : Controller)) ∧
     ((false : Bool) = false →
        (tryInvokeAbort ⟨false, [7, 8], []⟩).invoked = [] ++ [7, 8])) :=
  ⟨by decide, cancellationTokenIdempotent ⟨false, [7, 8], []⟩ 3 (by decide)⟩

/-! ## C10: the push path on a non-status subscription commitment -/

/-- **C10.** In the push path of the confirmation watcher, when the
subscription's commitment is not one of the three confirmation statuses
(e.g. `"recent"`), any non-error notification resolves immediately,
regardless of the required levels; the fall-through to REST polling happens
exactly when the commitment is a valid confirmation status whose rank does
not satisfy the required levels. -/
theorem pushPathDecisionSpec (sc : Commitment)
    (required : List ConfirmationStatus)
    (hsc : isValidConfirmationValue sc = false) :
    pushNotificationOutcome sc required false = .resolved ∧
    ∀ sc2 : Commitment,
      (pushNotificationOutcome sc2 required false = .fallthroughToPolling ↔
        isValidConfirmationValue sc2 = true ∧
        areConfirmationLevelsSatisfied required (commitmentAsStatus sc2) = false) := by
  constructor
  · simp [pushNotificationOutcome, hsc]
  · intro sc2
    by_cases h1 : isValidConfirmationValue sc2 <;>
      by_cases h2 : areConfirmationLevelsSatisfied required (commitmentAsStatus sc2) <;>
        simp [pushNotificationOutcome, h1, h2]

/-- Witness for C10 at the commitment `"recent"` with required levels
`[confirmed]`. -/
theorem pushPathDecisionSpecWitness :
    isValidConfirmationValue Commitment.recent = false ∧
    (pushNotificationOutcome Commitment.recent [ConfirmationStatus.confirmed] false =
        PushOutcome.resolved ∧
     ∀ sc2 : Commitment,
       (pushNotificationOutcome sc2 [ConfirmationStatus.confirmed] false =
           PushOutcome.fallthroughToPolling ↔
         isValidConfirmationValue sc2 = true ∧
         areConfirmationLevelsSatisfied [ConfirmationStatus.confirmed]
           (commitmentAsStatus sc2) = false)) :=
  ⟨by decide,
   pushPathDecisionSpec Commitment.recent [ConfirmationStatus.confirmed] (by decide)⟩

theorem staticStep_of_aborted (s : StaticState) (e : StaticEvent)
    (h : s.aborted = true) : staticStep s e = s := by
  cases e <;> simp [staticStep, h]

theorem staticFoldl_of_aborted (events : List StaticEvent) (s : StaticState)
    (h : s.aborted = true) : events.foldl staticStep s = s := by
  induction events with
  | nil => rfl
  | cons e rest ih => rw [List.foldl_cons, staticStep_of_aborted s e h, ih]

theorem staticRun_timerFirst (rest : List StaticEvent) :
    staticRun (.timerFire :: rest) = ⟨true, true, [⟨true, none⟩]⟩ := by
  rw [staticRun, List.foldl_cons]
  exact staticFoldl_of_aborted rest _ rfl

theorem staticRun_abortFirst (rest : List StaticEvent) :
    staticRun (.externalAbort :: rest) = ⟨true, true, []⟩ := by
  rw [staticRun, List.foldl_cons]
  exact staticFoldl_of_aborted rest _ rfl

/-! ## C2: the static timeout policy -/

/-- **C2.** For the static timeout policy with `timeoutMs = T`: the armed
timer's delay is exactly `T` (milliseconds, by `setTimeout` semantics); on
every event schedule the failure callback is invoked at most once, always
with the `{timeout: true}` signal, which the orchestrator's catch branch
turns into the Confirmation-Timeout error kind and never another kind; when
the timer fires undisturbed the callback runs exactly once; and when the
token fires first for any other reason the scheduled callback is cancelled
and never invoked. -/
theorem staticTimeoutSpec (config : StaticTimeoutConfig)
    (events pre post : List StaticEvent)
    (hsplit : events = pre ++ .externalAbort :: post)
    (hpre : StaticEvent.timerFire ∉ pre) :
    staticTimerDelay config = config.timeoutMs ∧
    (∀ evs : List StaticEvent,
      (staticRun evs).rejects.length ≤ 1 ∧
      ∀ p ∈ (staticRun evs).rejects,
        p = ⟨true, none⟩ ∧
        ∀ tid, confirmCatchBranch tid p =
          .confirmationTimeout tid "Timed out awaiting confirmation on transaction") ∧
    (staticRun [.timerFire]).rejects = [⟨true, none⟩] ∧
    (staticRun events).rejects = [] := by
  refine ⟨rfl, ?_, by rw [staticRun_timerFirst], ?_⟩
  · intro evs
    match evs with
    | [] => simp [staticRun]
    | .timerFire :: rest =>
      rw [staticRun_timerFirst]
      refine ⟨by simp, ?_⟩
      intro p hp
      simp only [List.mem_singleton] at hp
      subst hp
      exact ⟨rfl, fun tid => rfl⟩
    | .externalAbort :: rest =>
      rw [staticRun_abortFirst]
      simp
  · subst hsplit
    cases pre with
    | nil =>
      rw [List.nil_append, staticRun_abortFirst]
    | cons e pre2 =>
      cases e with
      | timerFire => exact absurd (List.mem_cons_self _ _) hpre
      | externalAbort => rw [List.cons_append, staticRun_abortFirst]

/-- Witness for C2 at `timeoutMs = 100` and the schedule where an external
abort arrives before the timer fires. -/
theorem staticTimeoutSpecWitness :
    ([StaticEvent.externalAbort, StaticEvent.timerFire] =
        [] ++ StaticEvent.externalAbort :: [StaticEvent.timerFire]) ∧
    (StaticEvent.timerFire ∉ ([] : List StaticEvent)) ∧
    (staticTimerDelay ⟨100⟩ = 100 ∧
     (∀ evs : List StaticEvent,
       (staticRun evs).rejects.length ≤ 1 ∧
       ∀ p ∈ (staticRun evs).rejects,
         p = ⟨true, none⟩ ∧
         ∀ tid, confirmCatchBranch tid p =
           .confirmationTimeout tid "Timed out awaiting confirmation on transaction") ∧
     (staticRun [.timerFire]).rejects = [⟨true, none⟩] ∧
     (staticRun [StaticEvent.externalAbort, StaticEvent.timerFire]).rejects = []) :=
  ⟨rfl, by decide,
   staticTimeoutSpec ⟨100⟩ [StaticEvent.externalAbort, StaticEvent.timerFire]
     [] [StaticEvent.timerFire] rfl (by decide)⟩

theorem runExpiration_of_aborted (steps : List ExpStep) (s : ExpState)
    (h : s.aborted = true) : runExpiration steps s = s := by
  cases steps with
  | nil => rfl
  | cons step rest => simp [runExpiration, h]

theorem runExpiration_characterize (steps : List ExpStep) (s : ExpState)
    (hs : s.aborted = false) :
    (runExpiration steps s).rejects =
      s.rejects ++
        (if reachesInvalidObservation steps then [⟨true, none⟩] else []) ∧
    (runExpiration steps s).queries = s.queries + expectedQueries steps ∧
    (reachesInvalidObservation steps = true →
      (runExpiration steps s).aborted = true) := by
  induction steps generalizing s with
  | nil =>
    simp [runExpiration, reachesInvalidObservation, expectedQueries]
  | cons step rest ih =>
    by_cases hv : step.valid
    · by_cases hq : step.abortDuringQuery
      · have hrun : runExpiration (step :: rest) s =
            { s with queries := s.queries + 1, aborted := true } := by
          simp [runExpiration, hs, hv, hq]
          exact runExpiration_of_aborted rest _ rfl
        simp [hrun, reachesInvalidObservation, expectedQueries, hv, hq]
      · by_cases hsl : step.abortDuringSleep
        · have hrun : runExpiration (step :: rest) s =
              { s with queries := s.queries + 1, aborted := true } := by
            simp [runExpiration, hs, hv, hq, hsl]
            exact runExpiration_of_aborted rest _ rfl
          simp [hrun, reachesInvalidObservation, expectedQueries, hv, hq, hsl]
        · have hrun : runExpiration (step :: rest) s =
              runExpiration rest { s with queries := s.queries + 1, aborted := false } := by
            simp [runExpiration, hs, hv, hq, hsl]
          obtain ⟨ih1, ih2, ih3⟩ :=
            ih { s with queries := s.queries + 1, aborted := false } rfl
          rw [hrun]
          refine ⟨?_, ?_, ?_⟩
          · simpa [reachesInvalidObservation, hv, hq, hsl] using ih1
          · rw [ih2]
            simp [expectedQueries, hv, hq, hsl]
            omega
          · intro hreach
            apply ih3
            simpa [reachesInvalidObservation, hv, hq, hsl] using hreach
    · by_cases hq : step.abortDuringQuery
      · have hrun : runExpiration (step :: rest) s =
            { s with queries := s.queries + 1, aborted := true } := by
          simp [runExpiration, hs, hv, hq]
        simp [hrun, reachesInvalidObservation, expectedQueries, hv, hq]
      · have hrun : runExpiration (step :: rest) s =
            { aborted := true, queries := s.queries + 1,
              rejects := s.rejects ++ [⟨true, none⟩] } := by
          simp [runExpiration, hs, hv, hq]
          exact runExpiration_of_aborted rest _ rfl
        simp [hrun, reachesInvalidObservation, expectedQueries, hv, hq]

/-! ## C5: the expiration timeout policy -/

/-- **C5.** For the expiration timeout policy: the failure callback is
invoked — always with the `{timeout: true}` signal, and then the token is
triggered — exactly when the polling loop reaches a blockhash-validity
query answered "no longer valid" with no abort having landed first (so it
is never invoked before such an observation, and at most once); and the
loop is interruptible: it issues exactly one validity query per iteration
up to and including the first iteration that stops it (an invalid answer or
the token firing during the query or the interruptible sleep, whether fired
by this policy or externally), and never begins another query afterwards. -/
theorem expirationTimeoutSpec (steps : List ExpStep) :
    ((expirationRun steps).rejects =
      if reachesInvalidObservation steps then [⟨true, none⟩] else []) ∧
    (expirationRun steps).queries = expectedQueries steps ∧
    (reachesInvalidObservation steps = true →
      (expirationRun steps).aborted = true) ∧
    ∀ p ∈ (expirationRun steps).rejects, p = ⟨true, none⟩ := by
  obtain ⟨h1, h2, h3⟩ := runExpiration_characterize steps ⟨false, 0, []⟩ rfl
  rw [expirationRun] at *
  refine ⟨by simpa using h1, by simpa using h2, h3, ?_⟩
  intro p hp
  rw [h1] at hp
  by_cases hr : reachesInvalidObservation steps <;> simp [hr] at hp
  exact hp

/-- Witness for C5 at a schedule whose second poll observes the blockhash
invalid. -/
theorem expirationTimeoutSpecWitness :
    ((expirationRun [⟨true, false, false⟩, ⟨false, false, false⟩]).rejects =
      if reachesInvalidObservation [⟨true, false, false⟩, ⟨false, false, false⟩]
      then [⟨true, none⟩] else []) ∧
    (expirationRun [⟨true, false, false⟩, ⟨false, false, false⟩]).queries =
      expectedQueries [⟨true, false, false⟩, ⟨false, false, false⟩] ∧
    (reachesInvalidObservation [⟨true, false, false⟩, ⟨false, false, false⟩] = true →
      (expirationRun [⟨true, false, false⟩, ⟨false, false, false⟩]).aborted = true) ∧
    ∀ p ∈ (expirationRun [⟨true, false, false⟩, ⟨false, false, false⟩]).rejects,
      p = ⟨true, none⟩ :=
  expirationTimeoutSpec [⟨true, false, false⟩, ⟨false, false, false⟩]

theorem runResubmitLoop_of_stopped (c : Bool) (l : List LoopStep) (p e : Bool)
    (h : (p || e) = true) : runResubmitLoop c l p e = ⟨0, 0⟩ := by
  cases l with
  | nil => rfl
  | cons st rest => simp [runResubmitLoop, h]

theorem runResubmitLoop_clean_append (pre rest : List LoopStep)
    (h : ∀ st ∈ pre,
      st.outcome ≠ BroadcastOutcome.alreadyProcessed ∧ st.abortDuringSleep = false) :
    (runResubmitLoop true (pre ++ rest) false false).broadcasts =
      pre.length + (runResubmitLoop true rest false false).broadcasts := by
  induction pre with
  | nil => simp
  | cons st pre2 ih =>
    obtain ⟨h1, h2⟩ := h st (List.mem_cons_self _ _)
    have hrest := ih fun st2 hst2 => h st2 (List.mem_cons_of_mem _ hst2)
    rw [List.cons_append]
    simp only [runResubmitLoop, Bool.false_or, Bool.or_false, h2,
      Bool.not_true, if_false]
    simp [h1, hrest]
    omega

theorem runResubmitLoop_stopsOnAlready (b : Bool) (post : List LoopStep) :
    runResubmitLoop true (⟨.alreadyProcessed, b⟩ :: post) false false = ⟨1, 0⟩ := by
  simp [runResubmitLoop, runResubmitLoop_of_stopped]

theorem runResubmitLoop_firstSleepAbort (cont : Bool) (fo : BroadcastOutcome)
    (rest : List BroadcastOutcome) :
    (runResubmitLoop cont (⟨fo, true⟩ :: rest.map (fun o => ⟨o, false⟩))
      false false).broadcasts = 1 := by
  cases cont with
  | false => simp [runResubmitLoop]
  | true =>
    simp only [runResubmitLoop]
    rw [runResubmitLoop_of_stopped true (rest.map fun o => ⟨o, false⟩)
      (decide (fo = BroadcastOutcome.alreadyProcessed)) (false || true) (by simp)]
    simp

/-! ## C7: benign "already processed" broadcast errors -/

/-- **C7.** In the resubmission loop, an iteration whose broadcast fails
with the recognized "this transaction has already been processed" error
stops the loop — no further re-broadcasts happen after it — while the
submission's own result is unaffected; a broadcast failure with any other
error neither stops the loop (every scheduled iteration still broadcasts)
nor changes the submission's result, which is independent of the loop's
broadcast outcomes altogether. -/
theorem resubmissionAlreadyProcessedSpec
    (pre post steps steps2 : List LoopStep) (b : Bool)
    (serializeResult : Except String Bytes) (t : Transaction) (cont : Bool)
    (hpre : ∀ st ∈ pre,
      st.outcome ≠ BroadcastOutcome.alreadyProcessed ∧ st.abortDuringSleep = false)
    (hsteps : ∀ st ∈ steps,
      st.outcome ≠ BroadcastOutcome.alreadyProcessed ∧ st.abortDuringSleep = false) :
    (runResubmitLoop true (pre ++ ⟨.alreadyProcessed, b⟩ :: post)
        false false).broadcasts = pre.length + 1 ∧
    (runResubmitLoop true steps false false).broadcasts = steps.length ∧
    (sendSignedTransactionRun serializeResult t cont steps).1 =
      (sendSignedTransactionRun serializeResult t cont steps2).1 := by
  refine ⟨?_, ?_, ?_⟩
  · rw [runResubmitLoop_clean_append pre _ hpre, runResubmitLoop_stopsOnAlready]
  · have := runResubmitLoop_clean_append steps [] hsteps
    simpa [runResubmitLoop] using this
  · rw [sendSignedTransactionRun, sendSignedTransactionRun]
    cases (deriveTransactionIdPhase serializeResult t).1 <;> rfl

/-- Witness for C7: one clean iteration, then an "already processed"
failure, with two more scheduled iterations that never run; and a schedule
of one ordinary failure plus one clean send that both broadcast. -/
theorem resubmissionAlreadyProcessedSpecWitness :
    (∀ st ∈ [(⟨.ok, false⟩ : LoopStep)],
      st.outcome ≠ BroadcastOutcome.alreadyProcessed ∧ st.abortDuringSleep = false) ∧
    (∀ st ∈ [(⟨.otherError, false⟩ : LoopStep), ⟨.ok, false⟩],
      st.outcome ≠ BroadcastOutcome.alreadyProcessed ∧ st.abortDuringSleep = false) ∧
    ((runResubmitLoop true
        ([⟨.ok, false⟩] ++ ⟨.alreadyProcessed, false⟩ :: [⟨.ok, false⟩, ⟨.ok, false⟩])
        false false).broadcasts = [(⟨.ok, false⟩ : LoopStep)].length + 1 ∧
     (runResubmitLoop true [(⟨.otherError, false⟩ : LoopStep), ⟨.ok, false⟩]
        false false).broadcasts =
       [(⟨.otherError, false⟩ : LoopStep), ⟨.ok, false⟩].length ∧
     (sendSignedTransactionRun (.ok [9]) ⟨[.raw [1, 2]], []⟩ true
        [(⟨.otherError, false⟩ : LoopStep), ⟨.ok, false⟩]).1 =
       (sendSignedTransactionRun (.ok [9]) ⟨[.raw [1, 2]], []⟩ true
        [(⟨.alreadyProcessed, true⟩ : LoopStep)]).1) :=
  ⟨by decide, by decide,
   resubmissionAlreadyProcessedSpec [⟨.ok, false⟩] [⟨.ok, false⟩, ⟨.ok, false⟩]
     [⟨.otherError, false⟩, ⟨.ok, false⟩] [⟨.alreadyProcessed, true⟩] false
     (.ok [9]) ⟨[.raw [1, 2]], []⟩ true (by decide) (by decide)⟩

/-! ## C6: the "none" timeout variant -/

/-- **C6.** Under the `"none"` timeout variant the orchestrator returns the
identifier right after the first broadcast is fired, awaits no confirmation
signal, and cancels the token right away, so exactly one resubmission
iteration's broadcast occurs and no further iteration runs — for every
serializable transaction with a usable first signature, every
continuous-send setting and every broadcast-outcome schedule. -/
theorem noneTimeoutSpec (serializeResult : Except String Bytes) (raw b : Bytes)
    (t : Transaction) (cont : Bool) (firstOutcome : BroadcastOutcome)
    (restOutcomes : List BroadcastOutcome)
    (hser : serializeResult = .ok raw) (hsig : firstSignatureBytes t = some b) :
    sendAndConfirmTransactionNone serializeResult t cont firstOutcome restOutcomes =
      ⟨.ok (base58Encode b), 1, false, true⟩ := by
  subst hser
  have hid := getSignature_ok_of_first t b hsig
  simp [sendAndConfirmTransactionNone, deriveTransactionIdPhase, hid,
    runResubmitLoop_firstSleepAbort]

/-- Witness for C6 at a one-signature transaction with signature bytes
`[1, 2, 3]`, continuous send on, all broadcasts succeeding. -/
theorem noneTimeoutSpecWitness :
    ((Except.ok [7] : Except String Bytes) = .ok [7]) ∧
    (firstSignatureBytes ⟨[.raw [1, 2, 3]], [0]⟩ = some [1, 2, 3]) ∧
    sendAndConfirmTransactionNone (.ok [7]) ⟨[.raw [1, 2, 3]], [0]⟩ true
        .ok [.ok, .ok] =
      ⟨.ok (base58Encode [1, 2, 3]), 1, false, true⟩ :=
  ⟨rfl, rfl,
   noneTimeoutSpec (.ok [7]) [7] [1, 2, 3] ⟨[.raw [1, 2, 3]], [0]⟩ true
     .ok [.ok, .ok] rfl rfl⟩

/-! ## C1: identifier derivation -/

/-- **C1.** For every signed transaction whose signature list is non-empty
and whose first signature slot is non-null (bytes `b`), and whose
serialization succeeds, the submission entry point computes the transaction
identifier as exactly the base-58 encoding of `b`; the derivation phase
performs no network operation (its operation trace is empty — the
resubmission loop is only spawned afterwards); and the identifier is
deterministic: any transaction with the same first signature yields the
same identifier, and the entry point's returned value does not depend on
any network outcome. -/
theorem identifierDerivationSpec (serializeResult : Except String Bytes)
    (raw b : Bytes) (t t2 : Transaction) (cont : Bool) (steps : List LoopStep)
    (hser : serializeResult = .ok raw) (hsig : firstSignatureBytes t = some b)
    (hsig2 : firstSignatureBytes t2 = firstSignatureBytes t) :
    (deriveTransactionIdPhase serializeResult t).1 = .ok (base58Encode b) ∧
    (deriveTransactionIdPhase serializeResult t).2 = [] ∧
    (sendSignedTransactionRun serializeResult t cont steps).1 =
      .ok (base58Encode b) ∧
    (deriveTransactionIdPhase serializeResult t2).1 =
      (deriveTransactionIdPhase serializeResult t).1 := by
  subst hser
  have hid := getSignature_ok_of_first t b hsig
  have hid2 := getSignature_ok_of_first t2 b (hsig2.trans hsig)
  simp [deriveTransactionIdPhase, sendSignedTransactionRun, hid, hid2]

/-- Witness for C1 at a transaction whose first signature is the pair slot
`[0, 255, 1]`, compared against a different transaction with the same first
signature. -/
theorem identifierDerivationSpecWitness :
    ((Except.ok [5] : Except String Bytes) = .ok [5]) ∧
    (firstSignatureBytes ⟨[.pair (some [0, 255, 1])], [0]⟩ = some [0, 255, 1]) ∧
    (firstSignatureBytes ⟨[.raw [0, 255, 1], .raw [9]], [1, 2]⟩ =
      firstSignatureBytes ⟨[.pair (some [0, 255, 1])], [0]⟩) ∧
    ((deriveTransactionIdPhase (.ok [5]) ⟨[.pair (some [0, 255, 1])], [0]⟩).1 =
        .ok (base58Encode [0, 255, 1]) ∧
     (deriveTransactionIdPhase (.ok [5]) ⟨[.pair (some [0, 255, 1])], [0]⟩).2 = [] ∧
     (sendSignedTransactionRun (.ok [5]) ⟨[.pair (some [0, 255, 1])], [0]⟩ false
        [⟨.ok, false⟩]).1 = .ok (base58Encode [0, 255, 1]) ∧
     (deriveTransactionIdPhase (.ok [5]) ⟨[.raw [0, 255, 1], .raw [9]], [1, 2]⟩).1 =
       (deriveTransactionIdPhase (.ok [5]) ⟨[.pair (some [0, 255, 1])], [0]⟩).1) :=
  ⟨rfl, rfl, rfl,
   identifierDerivationSpec (.ok [5]) [5] [0, 255, 1]
     ⟨[.pair (some [0, 255, 1])], [0]⟩ ⟨[.raw [0, 255, 1], .raw [9]], [1, 2]⟩
     false [⟨.ok, false⟩] rfl rfl rfl⟩

/-! ## C3: failing fast on missing or null signatures -/

/-- Counterexample to C3 as stated: a transaction with zero signatures
whose serialization succeeds (as for a `VersionedTransaction`) fails before
any broadcast, but with a plain generic `Error` from
`getTransactionSignatureOrThrow` — not with the distinguished
`SignatureError` kind the claim requires. -/
theorem signatureErrorKindCounterexample :
    (deriveTransactionIdPhase (.ok [0]) ⟨[], []⟩).1 =
      .error (.genericError "Transaction does not have any signatures") ∧
    isSignatureErrorKind (deriveTransactionIdPhase (.ok [0]) ⟨[], []⟩).1 = false ∧
    (deriveTransactionIdPhase (.ok [0]) ⟨[], []⟩).2 = [] :=
  ⟨rfl, rfl, rfl⟩

/-- **C3 (amended).** For every transaction with zero signatures or a null
first signature slot, the submission entry point fails before any broadcast
call (empty operation trace, zero broadcasts); when serialization succeeds
the error is a plain generic `Error` from the identifier derivation
(`"Transaction does not have any signatures"` for zero signatures,
`"Invalid signature"` for a null first slot), and the distinguished
`SignatureError` kind is raised exactly when `serialize()` itself throws. -/
theorem signatureFailureSpec (serializeResult : Except String Bytes)
    (raw : Bytes) (t : Transaction) (m : String) (cont : Bool)
    (steps : List LoopStep) (hsig : firstSignatureBytes t = none) :
    (serializeResult = .ok raw →
      ((t.signatures = [] →
        deriveTransactionIdPhase serializeResult t =
          (.error (.genericError "Transaction does not have any signatures"), [])) ∧
       (t.signatures ≠ [] →
        deriveTransactionIdPhase serializeResult t =
          (.error (.genericError "Invalid signature"), [])) ∧
       (sendSignedTransactionRun serializeResult t cont steps).2.broadcasts = 0)) ∧
    (serializeResult = .error m →
      deriveTransactionIdPhase serializeResult t =
        (.error (.signatureError m), [])) := by
  constructor
  · rintro rfl
    rcases t with ⟨sigs, ixs⟩
    cases sigs with
    | nil =>
      refine ⟨fun _ => rfl, fun hne => absurd rfl hne, ?_⟩
      rfl
    | cons slot rest =>
      cases slot with
      | raw bb => simp [firstSignatureBytes] at hsig
      | pair s =>
        simp only [firstSignatureBytes] at hsig
        subst hsig
        refine ⟨fun hnil => by simp at hnil, fun _ => ?_, ?_⟩
        · simp [deriveTransactionIdPhase, getTransactionSignatureOrThrow]
        · simp [sendSignedTransactionRun, deriveTransactionIdPhase,
            getTransactionSignatureOrThrow]
  · rintro rfl
    rfl

/-- Witness for C3 (amended) at a transaction whose only signature slot is
the null pair slot, with a successful serialization. -/
theorem signatureFailureSpecWitness :
    (firstSignatureBytes ⟨[.pair none], []⟩ = none) ∧
    ((Except.ok [3] = (Except.ok [3] : Except String Bytes) →
      (((⟨[.pair none], []⟩ : Transaction).signatures = [] →
        deriveTransactionIdPhase (.ok [3]) ⟨[.pair none], []⟩ =
          (.error (.genericError "Transaction does not have any signatures"), [])) ∧
       ((⟨[.pair none], []⟩ : Transaction).signatures ≠ [] →
        deriveTransactionIdPhase (.ok [3]) ⟨[.pair none], []⟩ =
          (.error (.genericError "Invalid signature"), [])) ∧
       (sendSignedTransactionRun (.ok [3]) ⟨[.pair none], []⟩ true
          [⟨.ok, false⟩]).2.broadcasts = 0)) ∧
     (Except.ok [3] = (Except.error "boom" : Except String Bytes) →
      deriveTransactionIdPhase (.ok [3]) ⟨[.pair none], []⟩ =
        (.error (.signatureError "boom"), []))) :=
  ⟨rfl,
   signatureFailureSpec (.ok [3]) [3] ⟨[.pair none], []⟩ "boom" true
     [⟨.ok, false⟩] rfl⟩

/-! ## C8: surfacing of on-chain `InstructionError` payloads -/

/-- Counterexample to C8 as stated: a watcher rejection carrying the
`InstructionError` payload `[2, "Custom"]` on a transaction with 3
instructions surfaces the generic Transaction-Failure error, which
references no instruction index at all. -/
theorem instructionErrorSurfacingCounterexample :
    (⟨[.raw [1]], [10, 11, 12]⟩ : Transaction).instructions.length = 3 ∧
    confirmCatchBranch "x" ⟨false, some ⟨2, "Custom"⟩⟩ =
      .transactionFailure "x" "Transaction failed" ∧
    referencesInstruction (confirmCatchBranch "x" ⟨false, some ⟨2, "Custom"⟩⟩) =
      none :=
  ⟨rfl, rfl, rfl⟩

/-- **C8 (amended).** For every submission whose confirmation watcher
rejects with a non-timeout payload — in particular one carrying an
`InstructionError` payload `[i, name]` — the error surfaced to the caller
is the generic Transaction-Failure error carrying the identifier and the
fixed message `"Transaction failed"`, referencing no instruction; the
`InstructionError` class, which the orchestrator never invokes, is what
would reference instruction `i` and attach `transaction.instructions[i]`. -/
theorem transactionFailureSurfacingSpec (tid : String) (t : Transaction)
    (p : RejectionPayload) (i : Nat) (nm : String)
    (ht : p.timeout = false) :
    confirmCatchBranch tid p = .transactionFailure tid "Transaction failed" ∧
    referencesInstruction (confirmCatchBranch tid p) = none ∧
    referencesInstruction (mkInstructionError tid t ⟨i, nm⟩) = some i := by
  refine ⟨?_, ?_, rfl⟩
  · simp [confirmCatchBranch, ht]
  · simp [confirmCatchBranch, ht, referencesInstruction]

/-- Witness for C8 (amended) at the payload `[2, "Custom"]` on a
transaction with 3 instructions. -/
theorem transactionFailureSurfacingSpecWitness :
    ((⟨false, some ⟨2, "Custom"⟩⟩ : RejectionPayload).timeout = false) ∧
    (confirmCatchBranch "x" ⟨false, some ⟨2, "Custom"⟩⟩ =
        .transactionFailure "x" "Transaction failed" ∧
     referencesInstruction (confirmCatchBranch "x" ⟨false, some ⟨2, "Custom"⟩⟩) =
       none ∧
     referencesInstruction
        (mkInstructionError "x" ⟨[.raw [1]], [10, 11, 12]⟩ ⟨2, "Custom"⟩) =
       some 2) :=
  ⟨rfl,
   transactionFailureSurfacingSpec "x" ⟨[.raw [1]], [10, 11, 12]⟩
     ⟨false, some ⟨2, "Custom"⟩⟩ 2 "Custom" rfl⟩

end TxCore
